import Mathlib

/-!
Shallow embedding of the `vehicle_passport_move::vehicle_passport` Move
module (the ledger core of the drivaro repository) and proofs of the
spec's claims about it.

Addresses are modelled as `Nat`, Move `u64` values as `Nat` together with
the Move semantics that checked arithmetic aborts on overflow (an
`arithmeticOverflow` error).  Every `assert!`/`abort` in the source is an
`Except.error` carrying the abort code; entry functions that mutate state
return the updated objects on success.
-/

namespace VehiclePassport

/-- Abort code `E_NOT_ADMIN` from the source. -/
def E_NOT_ADMIN : Nat := 1

/-- Abort code `E_WORKSHOP_NOT_ACTIVE` from the source. -/
def E_WORKSHOP_NOT_ACTIVE : Nat := 2

/-- Abort code `E_ODOMETER_ROLLBACK` from the source. -/
def E_ODOMETER_ROLLBACK : Nat := 3

/-- Abort code `E_ZERO_VALUE` from the source. -/
def E_ZERO_VALUE : Nat := 4

/-- Abort code `E_UNAUTHORIZED_SENDER` from the source. -/
def E_UNAUTHORIZED_SENDER : Nat := 5

/-- Largest value representable in a Move `u64`. -/
def U64_MAX : Nat := 2 ^ 64 - 1

/-- A Move transaction failure: a user `abort` with its code, or the
implicit abort of checked `u64` arithmetic on overflow. -/
inductive MoveError where
  | abortCode (code : Nat)
  | arithmeticOverflow
deriving DecidableEq, Repr

/-- `WorkshopIdentity` struct from the source. -/
structure WorkshopIdentity where
  workshop : Nat
  did : String
  public_key_multibase : String
  active : Bool
deriving DecidableEq, Repr

/-- `Registry` struct from the source (the `UID` is host bookkeeping and
carries no ledger state). -/
structure Registry where
  admin : Nat
  workshops : List WorkshopIdentity
  passport_counter : Nat
deriving DecidableEq, Repr

/-- `ServiceIntervention` struct from the source. -/
structure ServiceIntervention where
  seq : Nat
  workshop : Nat
  odometer_km : Nat
  work_type : String
  notes_hash : String
  evidence_uri : String
  workshop_signature : String
  recorded_at_ms : Nat
deriving DecidableEq, Repr

/-- `VehiclePassport` struct from the source. -/
structure Passport where
  vin : String
  make : String
  model : String
  year : Nat
  owner : Nat
  latest_odometer_km : Nat
  intervention_counter : Nat
  interventions : List ServiceIntervention
deriving DecidableEq, Repr

/-- The linear scan of `is_workshop_active` over the workshop vector:
returns the `active` flag of the first entry whose address matches,
`false` when none does. -/
def is_workshop_active_scan (workshops : List WorkshopIdentity) (workshop : Nat) : Bool :=
  match workshops with
  | [] => false
  | item :: rest =>
      if item.workshop = workshop then item.active
      else is_workshop_active_scan rest workshop

/-- `is_workshop_active` from the source. -/
def is_workshop_active (registry : Registry) (workshop : Nat) : Bool :=
  is_workshop_active_scan registry.workshops workshop

/-- The linear scan of `find_workshop_index`: index of the first entry
whose address matches, aborting with `E_WORKSHOP_NOT_ACTIVE` when none
does (the source reuses that code here). -/
def find_workshop_index_scan (workshops : List WorkshopIdentity) (workshop : Nat) :
    Except MoveError Nat :=
  match workshops with
  | [] => .error (.abortCode E_WORKSHOP_NOT_ACTIVE)
  | item :: rest =>
      if item.workshop = workshop then .ok 0
      else
        match find_workshop_index_scan rest workshop with
        | .ok i => .ok (i + 1)
        | .error e => .error e

/-- `find_workshop_index` from the source. -/
def find_workshop_index (registry : Registry) (workshop : Nat) : Except MoveError Nat :=
  find_workshop_index_scan registry.workshops workshop

/-- `init` from the source: the deployer becomes admin of a fresh registry. -/
def init (sender : Nat) : Registry :=
  { admin := sender, workshops := [], passport_counter := 0 }

/-- `register_workshop` from the source: self-registration only, appends a
fresh entry with `active := true`, no uniqueness check. -/
def register_workshop (registry : Registry) (workshop : Nat) (did : String)
    (public_key_multibase : String) (sender : Nat) : Except MoveError Registry :=
  if workshop = sender then
    .ok { registry with
          workshops := registry.workshops ++
            [{ workshop := workshop, did := did,
               public_key_multibase := public_key_multibase, active := true }] }
  else
    .error (.abortCode E_UNAUTHORIZED_SENDER)

/-- Overwrite the `active` flag of the entry at a given index, as
`vector::borrow_mut` followed by the field assignment does. -/
def set_active_at (workshops : List WorkshopIdentity) (idx : Nat) (active : Bool) :
    List WorkshopIdentity :=
  match workshops, idx with
  | [], _ => []
  | item :: rest, 0 => { item with active := active } :: rest
  | item :: rest, Nat.succ i => item :: set_active_at rest i active

/-- `set_workshop_status` from the source: admin-only, flips the `active`
flag of the first matching entry. -/
def set_workshop_status (registry : Registry) (workshop : Nat) (active : Bool)
    (sender : Nat) : Except MoveError Registry :=
  if registry.admin = sender then
    match find_workshop_index registry workshop with
    | .error e => .error e
    | .ok idx =>
        .ok { registry with workshops := set_active_at registry.workshops idx active }
  else
    .error (.abortCode E_NOT_ADMIN)

/-- `mint_vehicle_passport` from the source: self-minting only, `year`
must be positive, the fresh passport starts with zero odometer and empty
history, and the registry's passport counter is incremented (checked
`u64` addition). -/
def mint_vehicle_passport (registry : Registry) (vin make model : String) (year : Nat)
    (owner : Nat) (sender : Nat) : Except MoveError (Registry × Passport) :=
  if owner = sender then
    if year > 0 then
      if registry.passport_counter + 1 ≤ U64_MAX then
        .ok ({ registry with passport_counter := registry.passport_counter + 1 },
             { vin := vin, make := make, model := model, year := year, owner := owner,
               latest_odometer_km := 0, intervention_counter := 0, interventions := [] })
      else
        .error .arithmeticOverflow
    else
      .error (.abortCode E_ZERO_VALUE)
  else
    .error (.abortCode E_UNAUTHORIZED_SENDER)

/-- `record_intervention` from the source: the caller must be an active
workshop, the odometer may not roll back, the timestamp must be positive;
on success the counter and watermark are updated and the intervention is
appended with `seq` equal to the new counter and `workshop` equal to the
authenticated sender. -/
def record_intervention (registry : Registry) (passport : Passport) (odometer_km : Nat)
    (work_type notes_hash evidence_uri workshop_signature : String)
    (recorded_at_ms : Nat) (sender : Nat) : Except MoveError Passport :=
  if is_workshop_active registry sender then
    if odometer_km ≥ passport.latest_odometer_km then
      if recorded_at_ms > 0 then
        if passport.intervention_counter + 1 ≤ U64_MAX then
          .ok { passport with
                intervention_counter := passport.intervention_counter + 1,
                latest_odometer_km := odometer_km,
                interventions := passport.interventions ++
                  [{ seq := passport.intervention_counter + 1, workshop := sender,
                     odometer_km := odometer_km, work_type := work_type,
                     notes_hash := notes_hash, evidence_uri := evidence_uri,
                     workshop_signature := workshop_signature,
                     recorded_at_ms := recorded_at_ms }] }
        else
          .error .arithmeticOverflow
      else
        .error (.abortCode E_ZERO_VALUE)
    else
      .error (.abortCode E_ODOMETER_ROLLBACK)
  else
    .error (.abortCode E_WORKSHOP_NOT_ACTIVE)

/-- `transfer_passport` from the source: reassigns `owner` and hands the
object to the new owner; every other field is kept. -/
def transfer_passport (passport : Passport) (recipient : Nat) : Passport :=
  { passport with owner := recipient }

/-- `workshop_count` from the source. -/
def workshop_count (registry : Registry) : Nat :=
  registry.workshops.length

/-- `intervention_count` from the source. -/
def intervention_count (passport : Passport) : Nat :=
  passport.interventions.length

/-! ### Ledger-level transition system

A global state bundles the shared registry with every minted passport.
Operations name passports by position in the mint order.  A failing call
is an atomic abort: the state is unchanged. -/

/-- The full on-chain state the module governs: the shared registry plus
all minted passports, in mint order. -/
structure LedgerState where
  registry : Registry
  passports : List Passport
deriving DecidableEq, Repr

/-- One entry-function invocation, with its authenticated sender. -/
inductive Op where
  | registerWorkshop (workshop : Nat) (did pk : String) (sender : Nat)
  | setWorkshopStatus (workshop : Nat) (active : Bool) (sender : Nat)
  | mintPassport (vin make model : String) (year owner sender : Nat)
  | recordIntervention (pidx odometer_km : Nat)
      (work_type notes_hash evidence_uri workshop_signature : String)
      (recorded_at_ms sender : Nat)
  | transferPassport (pidx recipient : Nat)
deriving DecidableEq, Repr

/-- Execute one invocation against the ledger; an abort (including a call
naming a non-existent passport) leaves the state untouched. -/
def step (s : LedgerState) : Op → LedgerState
  | .registerWorkshop w d p sender =>
      match register_workshop s.registry w d p sender with
      | .ok r => { s with registry := r }
      | .error _ => s
  | .setWorkshopStatus w a sender =>
      match set_workshop_status s.registry w a sender with
      | .ok r => { s with registry := r }
      | .error _ => s
  | .mintPassport vin make model year owner sender =>
      match mint_vehicle_passport s.registry vin make model year owner sender with
      | .ok (r, p) => { registry := r, passports := s.passports ++ [p] }
      | .error _ => s
  | .recordIntervention pidx odo wt nh eu ws ts sender =>
      match s.passports[pidx]? with
      | none => s
      | some passport =>
          match record_intervention s.registry passport odo wt nh eu ws ts sender with
          | .ok p => { s with passports := s.passports.set pidx p }
          | .error _ => s
  | .transferPassport pidx recipient =>
      match s.passports[pidx]? with
      | none => s
      | some passport => { s with passports := s.passports.set pidx (transfer_passport passport recipient) }

/-- States reachable from a freshly initialised registry by any sequence
of invocations. -/
inductive Reachable : LedgerState → Prop where
  | init (sender : Nat) : Reachable { registry := init sender, passports := [] }
  | step (s : LedgerState) (op : Op) : Reachable s → Reachable (step s op)

/-! ### The per-passport invariant and its preservation -/

/-- The data invariant of one passport: the counter mirrors the history
length, sequence numbers are contiguous and 1-based, odometer readings
never decrease along the history, and the watermark equals the last
reading (0 for an empty history). -/
def PassportInv (p : Passport) : Prop :=
  p.intervention_counter = p.interventions.length ∧
  (∀ i a, p.interventions[i]? = some a → a.seq = i + 1) ∧
  List.Chain' (fun a b => a.odometer_km ≤ b.odometer_km) p.interventions ∧
  p.latest_odometer_km = ((p.interventions.getLast?).map ServiceIntervention.odometer_km).getD 0

theorem passportInv_fresh (p : Passport) (h1 : p.interventions = [])
    (h2 : p.intervention_counter = 0) (h3 : p.latest_odometer_km = 0) :
    PassportInv p := by
  refine ⟨by simp [h1, h2], ?_, by simp [h1], by simp [h1, h3]⟩
  intro i a ha
  rw [h1] at ha
  simp at ha

theorem passportInv_transfer (p : Passport) (recipient : Nat) (h : PassportInv p) :
    PassportInv (transfer_passport p recipient) := h

theorem mint_ok_fresh (registry : Registry) (vin make model : String)
    (year owner sender : Nat) (r : Registry) (p : Passport)
    (h : mint_vehicle_passport registry vin make model year owner sender = .ok (r, p)) :
    p.interventions = [] ∧ p.intervention_counter = 0 ∧ p.latest_odometer_km = 0 ∧
    r.admin = registry.admin ∧ r.workshops = registry.workshops := by
  unfold mint_vehicle_passport at h
  split_ifs at h
  injection h with h
  injection h with h1 h2
  subst h1
  subst h2
  exact ⟨rfl, rfl, rfl, rfl, rfl⟩

theorem record_intervention_ok (registry : Registry) (passport : Passport) (odo : Nat)
    (wt nh eu ws : String) (ts sender : Nat) (p2 : Passport)
    (h : record_intervention registry passport odo wt nh eu ws ts sender = .ok p2) :
    is_workshop_active registry sender = true ∧
    passport.latest_odometer_km ≤ odo ∧ 0 < ts ∧
    p2 = { passport with
           intervention_counter := passport.intervention_counter + 1,
           latest_odometer_km := odo,
           interventions := passport.interventions ++
             [{ seq := passport.intervention_counter + 1, workshop := sender,
                odometer_km := odo, work_type := wt, notes_hash := nh,
                evidence_uri := eu, workshop_signature := ws, recorded_at_ms := ts }] } := by
  unfold record_intervention at h
  split_ifs at h with ha hb hc hd
  injection h with h
  exact ⟨ha, hb, hc, h.symm⟩

theorem passportInv_record (registry : Registry) (passport : Passport) (odo : Nat)
    (wt nh eu ws : String) (ts sender : Nat) (p2 : Passport)
    (hinv : PassportInv passport)
    (h : record_intervention registry passport odo wt nh eu ws ts sender = .ok p2) :
    PassportInv p2 := by
  obtain ⟨hc, hseq, hchain, hlast⟩ := hinv
  obtain ⟨hact, hodo, hts, rfl⟩ := record_intervention_ok registry passport odo wt nh eu ws ts sender p2 h
  refine ⟨by simp [hc], ?_, ?_, by simp⟩
  · intro i a ha
    simp only [List.getElem?_append] at ha
    by_cases hi : i < passport.interventions.length
    · rw [if_pos hi] at ha
      exact hseq i a ha
    · rw [if_neg hi] at ha
      by_cases hie : i = passport.interventions.length
      · rw [hie, Nat.sub_self] at ha
        simp only [List.getElem?_cons_zero, Option.some.injEq] at ha
        subst ha
        simp [hc, hie]
      · have hk : i - passport.interventions.length = (i - passport.interventions.length - 1) + 1 := by
          omega
        rw [hk, List.getElem?_cons_succ, List.getElem?_nil] at ha
        exact absurd ha (by simp)
  · rw [List.chain'_append]
    refine ⟨hchain, by simp, ?_⟩
    intro x hx y hy
    simp only [List.head?_cons, Option.mem_def, Option.some.injEq] at hy
    subst hy
    rw [Option.mem_def] at hx
    rw [hx] at hlast
    simp only [Option.map_some', Option.getD_some] at hlast
    simpa [← hlast] using hodo

theorem step_passports_registerWorkshop (s : LedgerState) (w : Nat) (d pk : String)
    (sender : Nat) :
    (step s (.registerWorkshop w d pk sender)).passports = s.passports := by
  cases hq : register_workshop s.registry w d pk sender with
  | ok r => simp [step, hq]
  | error e => simp [step, hq]

theorem step_passports_setWorkshopStatus (s : LedgerState) (w : Nat) (a : Bool)
    (sender : Nat) :
    (step s (.setWorkshopStatus w a sender)).passports = s.passports := by
  cases hq : set_workshop_status s.registry w a sender with
  | ok r => simp [step, hq]
  | error e => simp [step, hq]

/-- Every passport of a reachable ledger state satisfies the data
invariant. -/
theorem reachable_passportInv (s : LedgerState) (h : Reachable s) :
    ∀ p ∈ s.passports, PassportInv p := by
  induction h with
  | init sender =>
      intro p hp
      simp at hp
  | step s op hs ih =>
      intro p hp
      cases op with
      | registerWorkshop w d pk sender =>
          rw [step_passports_registerWorkshop] at hp
          exact ih p hp
      | setWorkshopStatus w a sender =>
          rw [step_passports_setWorkshopStatus] at hp
          exact ih p hp
      | mintPassport vin make model year owner sender =>
          cases hq : mint_vehicle_passport s.registry vin make model year owner sender with
          | error e =>
              simp only [step, hq] at hp
              exact ih p hp
          | ok rp =>
              obtain ⟨r, newp⟩ := rp
              simp only [step, hq] at hp
              rw [List.mem_append] at hp
              rcases hp with hp | hp
              · exact ih p hp
              · simp only [List.mem_singleton] at hp
                subst hp
                obtain ⟨h1, h2, h3, _, _⟩ :=
                  mint_ok_fresh s.registry vin make model year owner sender r p hq
                exact passportInv_fresh p h1 h2 h3
      | recordIntervention pidx odo wt nh eu ws ts sender =>
          cases hg : s.passports[pidx]? with
          | none =>
              simp only [step, hg] at hp
              exact ih p hp
          | some passport =>
              cases hq : record_intervention s.registry passport odo wt nh eu ws ts sender with
              | error e =>
                  simp only [step, hg, hq] at hp
                  exact ih p hp
              | ok p2 =>
                  simp only [step, hg, hq] at hp
                  rcases List.mem_or_eq_of_mem_set hp with hmem | heq
                  · exact ih p hmem
                  · subst heq
                    exact passportInv_record s.registry passport odo wt nh eu ws ts sender p
                      (ih passport (List.getElem?_mem hg)) hq
      | transferPassport pidx recipient =>
          cases hg : s.passports[pidx]? with
          | none =>
              simp only [step, hg] at hp
              exact ih p hp
          | some passport =>
              simp only [step, hg] at hp
              rcases List.mem_or_eq_of_mem_set hp with hmem | heq
              · exact ih p hmem
              · subst heq
                exact passportInv_transfer passport recipient
                  (ih passport (List.getElem?_mem hg))

theorem chain'_rel_of_getElem? {α : Type} {R : α → α → Prop} (l : List α)
    (hc : List.Chain' R l) (i : Nat) (a b : α)
    (ha : l[i]? = some a) (hb : l[i + 1]? = some b) : R a b := by
  induction l generalizing i with
  | nil => simp at ha
  | cons x rest ih =>
      cases rest with
      | nil =>
          rw [List.getElem?_cons_succ, List.getElem?_nil] at hb
          exact absurd hb (by simp)
      | cons y rest2 =>
          rw [List.chain'_cons] at hc
          cases i with
          | zero =>
              rw [List.getElem?_cons_zero] at ha
              rw [List.getElem?_cons_succ, List.getElem?_cons_zero] at hb
              injection ha with ha
              injection hb with hb
              subst ha
              subst hb
              exact hc.1
          | succ j =>
              rw [List.getElem?_cons_succ] at ha
              rw [List.getElem?_cons_succ] at hb
              exact ih hc.2 j ha hb

/-! ### A concrete run of the ledger, used to witness the invariant
theorems on explicit data -/

/-- A concrete four-transaction run: address 7 self-registers as a
workshop, address 9 mints a passport for itself, then workshop 7 records
two interventions at 15000 km and 16000 km. -/
def demoState : LedgerState :=
  step (step (step (step
    { registry := init 7, passports := [] }
    (.registerWorkshop 7 "did:x:aa" "mABC" 7))
    (.mintPassport "VIN123" "Acme" "Z1" 2020 9 9))
    (.recordIntervention 0 15000 "oil_change" "h1" "u1" "s1" 1700000000000 7))
    (.recordIntervention 0 16000 "tires" "h2" "u2" "s2" 1700000001000 7)

theorem demoState_reachable : Reachable demoState :=
  .step _ _ (.step _ _ (.step _ _ (.step _ _ (.init 7))))

/-- First intervention of the demo run. -/
def demoInt1 : ServiceIntervention :=
  { seq := 1, workshop := 7, odometer_km := 15000, work_type := "oil_change",
    notes_hash := "h1", evidence_uri := "u1", workshop_signature := "s1",
    recorded_at_ms := 1700000000000 }

/-- Second intervention of the demo run. -/
def demoInt2 : ServiceIntervention :=
  { seq := 2, workshop := 7, odometer_km := 16000, work_type := "tires",
    notes_hash := "h2", evidence_uri := "u2", workshop_signature := "s2",
    recorded_at_ms := 1700000001000 }

/-- The passport produced by the demo run. -/
def demoPassport : Passport :=
  { vin := "VIN123", make := "Acme", model := "Z1", year := 2020, owner := 9,
    latest_odometer_km := 16000, intervention_counter := 2,
    interventions := [demoInt1, demoInt2] }

/-! ### Claim theorems -/

/-- C1: for every reachable passport and every pair of adjacent
interventions in its history, the earlier intervention's odometer reading
is less than or equal to the later one's; since `Reachable` is closed
under `step`, this holds after every operation of the ledger. -/
theorem c1_odometer_nondecreasing (s : LedgerState) (h : Reachable s)
    (p : Passport) (hp : p ∈ s.passports) (i : Nat) (a b : ServiceIntervention)
    (ha : p.interventions[i]? = some a) (hb : p.interventions[i + 1]? = some b) :
    a.odometer_km ≤ b.odometer_km := by
  obtain ⟨-, -, hchain, -⟩ := reachable_passportInv s h p hp
  exact chain'_rel_of_getElem? p.interventions hchain i a b ha hb

theorem c1_odometer_nondecreasing_witness :
    demoPassport ∈ demoState.passports ∧
    demoPassport.interventions[0]? = some demoInt1 ∧
    demoPassport.interventions[1]? = some demoInt2 ∧
    demoInt1.odometer_km ≤ demoInt2.odometer_km :=
  ⟨by decide, by decide, by decide,
   c1_odometer_nondecreasing demoState demoState_reachable demoPassport (by decide)
     0 demoInt1 demoInt2 (by decide) (by decide)⟩

/-- C2: for every reachable passport the intervention sequence numbers
are exactly `1..N`: the counter equals the history length and the entry
at position `i` carries `seq = i + 1`; this holds after every operation
of the ledger. -/
theorem c2_seq_contiguous (s : LedgerState) (h : Reachable s)
    (p : Passport) (hp : p ∈ s.passports) :
    p.intervention_counter = p.interventions.length ∧
    ∀ i a, p.interventions[i]? = some a → a.seq = i + 1 := by
  obtain ⟨hc, hseq, -, -⟩ := reachable_passportInv s h p hp
  exact ⟨hc, hseq⟩

theorem c2_seq_contiguous_witness :
    demoPassport ∈ demoState.passports ∧
    demoPassport.intervention_counter = demoPassport.interventions.length ∧
    demoInt1.seq = 0 + 1 ∧ demoInt2.seq = 1 + 1 :=
  ⟨by decide,
   (c2_seq_contiguous demoState demoState_reachable demoPassport (by decide)).1,
   (c2_seq_contiguous demoState demoState_reachable demoPassport (by decide)).2
     0 demoInt1 (by decide),
   (c2_seq_contiguous demoState demoState_reachable demoPassport (by decide)).2
     1 demoInt2 (by decide)⟩

/-- C3: for every reachable passport, `latest_odometer_km` equals the
odometer reading of the most recently appended intervention, or 0 when
the history is empty; reachability closes this under `mint`, every
successful `record_intervention`, and `transfer_passport`. -/
theorem c3_latest_odometer (s : LedgerState) (h : Reachable s)
    (p : Passport) (hp : p ∈ s.passports) :
    p.latest_odometer_km =
      ((p.interventions.getLast?).map ServiceIntervention.odometer_km).getD 0 := by
  obtain ⟨-, -, -, hlast⟩ := reachable_passportInv s h p hp
  exact hlast

theorem c3_latest_odometer_witness :
    demoPassport ∈ demoState.passports ∧
    demoPassport.latest_odometer_km =
      ((demoPassport.interventions.getLast?).map ServiceIntervention.odometer_km).getD 0 :=
  ⟨by decide,
   c3_latest_odometer demoState demoState_reachable demoPassport (by decide)⟩

/-! ### First-match characterisations of the directory scans -/

theorem is_workshop_active_scan_eq_find (ws : List WorkshopIdentity) (w : Nat) :
    is_workshop_active_scan ws w =
      (((ws.find? fun it => it.workshop == w).map WorkshopIdentity.active).getD false) := by
  induction ws with
  | nil => rfl
  | cons item rest ih =>
      by_cases hw : item.workshop = w
      · rw [List.find?_cons_of_pos _ (by simp [hw])]
        simp [is_workshop_active_scan, hw]
      · rw [List.find?_cons_of_neg _ (by simp [hw])]
        simpa [is_workshop_active_scan, hw] using ih

theorem is_workshop_active_scan_append (ws l2 : List WorkshopIdentity) (w : Nat)
    (entry : WorkshopIdentity)
    (hfind : ws.find? (fun it => it.workshop == w) = some entry) :
    is_workshop_active_scan (ws ++ l2) w = entry.active := by
  induction ws with
  | nil => simp at hfind
  | cons item rest ih =>
      by_cases hw : item.workshop = w
      · rw [List.find?_cons_of_pos _ (by simp [hw])] at hfind
        injection hfind with hfind
        subst hfind
        simp [is_workshop_active_scan, hw]
      · rw [List.find?_cons_of_neg _ (by simp [hw])] at hfind
        simpa [is_workshop_active_scan, hw] using ih hfind

theorem find_workshop_index_scan_none (ws : List WorkshopIdentity) (w : Nat)
    (h : ws.find? (fun it => it.workshop == w) = none) :
    find_workshop_index_scan ws w = .error (.abortCode E_WORKSHOP_NOT_ACTIVE) := by
  induction ws with
  | nil => rfl
  | cons item rest ih =>
      by_cases hw : item.workshop = w
      · rw [List.find?_cons_of_pos _ (by simp [hw])] at h
        exact absurd h (by simp)
      · rw [List.find?_cons_of_neg _ (by simp [hw])] at h
        simp only [find_workshop_index_scan, if_neg hw, ih h]

/-! ### Fixed concrete data for counterexamples and witnesses -/

/-- A passport with empty history and zero watermark. -/
def blankPassport : Passport :=
  { vin := "V", make := "M", model := "D", year := 1, owner := 3,
    latest_odometer_km := 0, intervention_counter := 0, interventions := [] }

/-- A passport whose watermark is already 1. -/
def watermarkPassport : Passport :=
  { vin := "V", make := "M", model := "D", year := 1, owner := 3,
    latest_odometer_km := 1, intervention_counter := 0, interventions := [] }

/-- A registry whose only workshop entry (address 7) is active. -/
def activeRegistry : Registry :=
  { admin := 1, workshops := [{ workshop := 7, did := "d", public_key_multibase := "k",
                                active := true }], passport_counter := 0 }

/-- A registry whose only workshop entry (address 7) is deactivated. -/
def inactiveRegistry : Registry :=
  { admin := 1, workshops := [{ workshop := 7, did := "d", public_key_multibase := "k",
                                active := false }], passport_counter := 0 }

/-- A one-passport ledger state with an active workshop at address 7. -/
def rollbackState : LedgerState :=
  { registry := activeRegistry, passports := [watermarkPassport] }

/-! ### Claims C4 to C10 -/

/-- C4 counterexample: with an unregistered caller (address 9 against a
fresh registry) and an odometer below the watermark, the call fails with
`E_WORKSHOP_NOT_ACTIVE`, not `E_ODOMETER_ROLLBACK` — the claim's
"regardless of caller" is false because the workshop check runs first. -/
theorem c4_rollback_counterexample :
    0 < watermarkPassport.latest_odometer_km ∧
    record_intervention (init 1) watermarkPassport 0 "t" "n" "e" "w" 1 9 =
      .error (.abortCode E_WORKSHOP_NOT_ACTIVE) ∧
    MoveError.abortCode E_WORKSHOP_NOT_ACTIVE ≠ MoveError.abortCode E_ODOMETER_ROLLBACK :=
  ⟨by decide, rfl, by decide⟩

/-- C4 (amended): a `record_intervention` call whose odometer is strictly
below the passport's watermark always fails — with `E_ODOMETER_ROLLBACK`
when the caller is an active workshop, with `E_WORKSHOP_NOT_ACTIVE`
otherwise (that check runs first) — and the failing step leaves the
ledger state, hence every field of the passport, exactly unchanged. -/
theorem c4_odometer_rollback (s : LedgerState) (passport : Passport) (pidx odo : Nat)
    (wt nh eu ws : String) (ts sender : Nat)
    (hp : s.passports[pidx]? = some passport)
    (h : odo < passport.latest_odometer_km) :
    record_intervention s.registry passport odo wt nh eu ws ts sender =
      .error (.abortCode (if is_workshop_active s.registry sender then E_ODOMETER_ROLLBACK
                          else E_WORKSHOP_NOT_ACTIVE)) ∧
    step s (.recordIntervention pidx odo wt nh eu ws ts sender) = s := by
  have hrec : record_intervention s.registry passport odo wt nh eu ws ts sender =
      .error (.abortCode (if is_workshop_active s.registry sender then E_ODOMETER_ROLLBACK
                          else E_WORKSHOP_NOT_ACTIVE)) := by
    cases hact : is_workshop_active s.registry sender with
    | true => simp [record_intervention, hact, Nat.not_le.mpr h]
    | false => simp [record_intervention, hact]
  exact ⟨hrec, by simp [step, hp, hrec]⟩

theorem c4_odometer_rollback_witness :
    rollbackState.passports[0]? = some watermarkPassport ∧
    0 < watermarkPassport.latest_odometer_km ∧
    record_intervention rollbackState.registry watermarkPassport 0 "t" "n" "e" "w" 1 7 =
      .error (.abortCode (if is_workshop_active rollbackState.registry 7 then E_ODOMETER_ROLLBACK
                          else E_WORKSHOP_NOT_ACTIVE)) ∧
    step rollbackState (.recordIntervention 0 0 "t" "n" "e" "w" 1 7) = rollbackState :=
  ⟨by decide, by decide,
   (c4_odometer_rollback rollbackState watermarkPassport 0 0 "t" "n" "e" "w" 1 7
      (by decide) (by decide)).1,
   (c4_odometer_rollback rollbackState watermarkPassport 0 0 "t" "n" "e" "w" 1 7
      (by decide) (by decide)).2⟩

/-- C5: when the caller's first matching directory entry is not active —
or no entry matches at all — `record_intervention` fails with
`E_WORKSHOP_NOT_ACTIVE` whatever the other arguments; consequently a call
can succeed only for a caller whose first matching entry is active.  The
second conjunct records that the activity test is exactly the first-match
lookup over the workshop collection. -/
theorem c5_inactive_fails (registry : Registry) (passport : Passport) (odo : Nat)
    (wt nh eu ws : String) (ts sender : Nat)
    (h : is_workshop_active registry sender = false) :
    record_intervention registry passport odo wt nh eu ws ts sender =
      .error (.abortCode E_WORKSHOP_NOT_ACTIVE) ∧
    is_workshop_active registry sender =
      (((registry.workshops.find? fun it => it.workshop == sender).map
          WorkshopIdentity.active).getD false) :=
  ⟨by simp [record_intervention, h],
   is_workshop_active_scan_eq_find registry.workshops sender⟩

theorem c5_inactive_fails_witness :
    is_workshop_active inactiveRegistry 7 = false ∧
    record_intervention inactiveRegistry blankPassport 5 "t" "n" "e" "w" 1 7 =
      .error (.abortCode E_WORKSHOP_NOT_ACTIVE) ∧
    is_workshop_active inactiveRegistry 7 =
      (((inactiveRegistry.workshops.find? fun it => it.workshop == 7).map
          WorkshopIdentity.active).getD false) :=
  ⟨by decide,
   (c5_inactive_fails inactiveRegistry blankPassport 5 "t" "n" "e" "w" 1 7 (by decide)).1,
   (c5_inactive_fails inactiveRegistry blankPassport 5 "t" "n" "e" "w" 1 7 (by decide)).2⟩

/-- C6 counterexample: `set_workshop_status` on an unknown address aborts
with the very code `E_WORKSHOP_NOT_ACTIVE` that recording by an
unregistered identity produces — the module has no separate
`WorkshopNotFound` code, so the claimed distinct kind does not exist. -/
theorem c6_not_found_counterexample :
    set_workshop_status (init 1) 9 true 1 = .error (.abortCode E_WORKSHOP_NOT_ACTIVE) ∧
    record_intervention (init 1) blankPassport 5 "t" "n" "e" "w" 1 9 =
      .error (.abortCode E_WORKSHOP_NOT_ACTIVE) :=
  ⟨rfl, rfl⟩

/-- C6 (amended): `set_workshop_status` called by the admin with an
address that has no directory entry fails, but with abort code
`E_WORKSHOP_NOT_ACTIVE` — the same code used when an unregistered or
deactivated identity tries to record — because `find_workshop_index`
reuses that code; there is no distinct `WorkshopNotFound` kind. -/
theorem c6_missing_workshop (registry : Registry) (workshop : Nat) (active : Bool)
    (sender : Nat) (hadmin : registry.admin = sender)
    (hnone : registry.workshops.find? (fun it => it.workshop == workshop) = none) :
    set_workshop_status registry workshop active sender =
      .error (.abortCode E_WORKSHOP_NOT_ACTIVE) := by
  have hidx := find_workshop_index_scan_none registry.workshops workshop hnone
  simp [set_workshop_status, hadmin, find_workshop_index, hidx]

theorem c6_missing_workshop_witness :
    (init 1).admin = 1 ∧
    (init 1).workshops.find? (fun it => it.workshop == 9) = none ∧
    set_workshop_status (init 1) 9 true 1 = .error (.abortCode E_WORKSHOP_NOT_ACTIVE) :=
  ⟨rfl, rfl, c6_missing_workshop (init 1) 9 true 1 rfl rfl⟩

/-- C7 counterexample: minting with `year = 0` and recording with
`recorded_at_ms = 0` both abort with the single code `E_ZERO_VALUE`, so a
caller cannot tell the two failures apart from the error alone — the
claimed distinguishable `InvalidYear` / `InvalidTimestamp` kinds are one
and the same code. -/
theorem c7_zero_value_counterexample :
    mint_vehicle_passport (init 1) "V" "M" "D" 0 9 9 = .error (.abortCode E_ZERO_VALUE) ∧
    record_intervention activeRegistry blankPassport 0 "t" "n" "e" "w" 0 7 =
      .error (.abortCode E_ZERO_VALUE) :=
  ⟨rfl, rfl⟩

/-- C7 (amended): `mint_vehicle_passport` with `year = 0` fails with
abort code `E_ZERO_VALUE`, and `record_intervention` with
`recorded_at_ms = 0` (reached past the workshop and odometer checks)
fails with the same abort code `E_ZERO_VALUE`; the two failures are not
distinguishable from the error alone. -/
theorem c7_zero_value (registry registry2 : Registry) (vin make model : String)
    (owner sender : Nat) (passport : Passport) (odo : Nat) (wt nh eu ws : String)
    (sender2 : Nat) (h1 : owner = sender)
    (h2 : is_workshop_active registry2 sender2 = true)
    (h3 : passport.latest_odometer_km ≤ odo) :
    mint_vehicle_passport registry vin make model 0 owner sender =
      .error (.abortCode E_ZERO_VALUE) ∧
    record_intervention registry2 passport odo wt nh eu ws 0 sender2 =
      .error (.abortCode E_ZERO_VALUE) :=
  ⟨by simp [mint_vehicle_passport, h1],
   by simp [record_intervention, h2, h3]⟩

theorem c7_zero_value_witness :
    (9 : Nat) = 9 ∧
    is_workshop_active activeRegistry 7 = true ∧
    blankPassport.latest_odometer_km ≤ 0 ∧
    mint_vehicle_passport (init 1) "V" "M" "D" 0 9 9 = .error (.abortCode E_ZERO_VALUE) ∧
    record_intervention activeRegistry blankPassport 0 "t" "n" "e" "w" 0 7 =
      .error (.abortCode E_ZERO_VALUE) :=
  ⟨rfl, by decide, by decide,
   (c7_zero_value (init 1) activeRegistry "V" "M" "D" 9 9 blankPassport 0 "t" "n" "e" "w" 7
      rfl (by decide) (by decide)).1,
   (c7_zero_value (init 1) activeRegistry "V" "M" "D" 9 9 blankPassport 0 "t" "n" "e" "w" 7
      rfl (by decide) (by decide)).2⟩

/-- C8: `transfer_passport` sets `owner` to the given target and
preserves `vin`, `make`, `model`, `year`, `latest_odometer_km`,
`intervention_counter` and the whole `interventions` sequence exactly. -/
theorem c8_transfer_frame (passport : Passport) (recipient : Nat) :
    (transfer_passport passport recipient).owner = recipient ∧
    (transfer_passport passport recipient).vin = passport.vin ∧
    (transfer_passport passport recipient).make = passport.make ∧
    (transfer_passport passport recipient).model = passport.model ∧
    (transfer_passport passport recipient).year = passport.year ∧
    (transfer_passport passport recipient).latest_odometer_km = passport.latest_odometer_km ∧
    (transfer_passport passport recipient).intervention_counter = passport.intervention_counter ∧
    (transfer_passport passport recipient).interventions = passport.interventions :=
  ⟨rfl, rfl, rfl, rfl, rfl, rfl, rfl, rfl⟩

theorem set_active_at_getElem?_self (ws : List WorkshopIdentity) (idx : Nat) (active : Bool)
    (a : WorkshopIdentity) (h : ws[idx]? = some a) :
    (set_active_at ws idx active)[idx]? = some { a with active := active } := by
  induction ws generalizing idx with
  | nil => simp at h
  | cons item rest ih =>
      cases idx with
      | zero =>
          rw [List.getElem?_cons_zero] at h
          injection h with h
          subst h
          simp [set_active_at]
      | succ i =>
          rw [List.getElem?_cons_succ] at h
          simp only [set_active_at, List.getElem?_cons_succ]
          exact ih i h

theorem set_active_at_getElem?_ne (ws : List WorkshopIdentity) (idx : Nat) (active : Bool)
    (j : Nat) (hj : j ≠ idx) :
    (set_active_at ws idx active)[j]? = ws[j]? := by
  induction ws generalizing idx j with
  | nil => rfl
  | cons item rest ih =>
      cases idx with
      | zero =>
          cases j with
          | zero => exact absurd rfl hj
          | succ j2 => simp only [set_active_at, List.getElem?_cons_succ]
      | succ i =>
          cases j with
          | zero => simp [set_active_at]
          | succ j2 =>
              simp only [set_active_at, List.getElem?_cons_succ]
              exact ih i j2 (fun he => hj (by rw [he]))

theorem find_workshop_index_scan_ok (ws : List WorkshopIdentity) (w : Nat) (idx : Nat)
    (entry : WorkshopIdentity)
    (hfind : ws.find? (fun it => it.workshop == w) = some entry)
    (hscan : find_workshop_index_scan ws w = .ok idx) :
    ws[idx]? = some entry := by
  induction ws generalizing idx with
  | nil => simp at hfind
  | cons item rest ih =>
      by_cases hw : item.workshop = w
      · rw [List.find?_cons_of_pos _ (by simp [hw])] at hfind
        injection hfind with hfind
        subst hfind
        simp only [find_workshop_index_scan, if_pos hw] at hscan
        injection hscan with hscan
        subst hscan
        simp
      · rw [List.find?_cons_of_neg _ (by simp [hw])] at hfind
        simp only [find_workshop_index_scan, if_neg hw] at hscan
        cases hs : find_workshop_index_scan rest w with
        | error e =>
            rw [hs] at hscan
            exact absurd hscan (by simp)
        | ok i =>
            rw [hs] at hscan
            injection hscan with hscan
            subst hscan
            rw [List.getElem?_cons_succ]
            exact ih i hfind hs

/-- C9: `register_workshop` performs no uniqueness check — when the
directory's first matching entry for an address is inactive, a new
self-registration for that address still succeeds and appends a second,
active entry, yet `is_workshop_active` keeps answering `false` because
only the first matching entry is ever observed; and `set_workshop_status`
only ever modifies the first matching entry: it rewrites exactly the
`active` flag at the index `find_workshop_index` returns — the position
holding the `find?` (first-match) entry — and leaves the entry at every
other position, later duplicates included, unchanged. -/
theorem c9_duplicate_registration (registry : Registry) (addr : Nat) (did pk : String)
    (entry : WorkshopIdentity) (active : Bool) (sender idx j : Nat)
    (hfind : registry.workshops.find? (fun it => it.workshop == addr) = some entry)
    (hinact : entry.active = false)
    (hadmin : registry.admin = sender)
    (hidx : find_workshop_index registry addr = .ok idx)
    (hj : j ≠ idx) :
    register_workshop registry addr did pk addr =
      .ok { registry with workshops := registry.workshops ++
            [{ workshop := addr, did := did, public_key_multibase := pk, active := true }] } ∧
    is_workshop_active registry addr = false ∧
    is_workshop_active
      { registry with workshops := registry.workshops ++
        [{ workshop := addr, did := did, public_key_multibase := pk, active := true }] }
      addr = false ∧
    set_workshop_status registry addr active sender =
      .ok { registry with workshops := set_active_at registry.workshops idx active } ∧
    registry.workshops[idx]? = some entry ∧
    (set_active_at registry.workshops idx active)[idx]? = some { entry with active := active } ∧
    (set_active_at registry.workshops idx active)[j]? = registry.workshops[j]? := by
  have hat : registry.workshops[idx]? = some entry :=
    find_workshop_index_scan_ok registry.workshops addr idx entry hfind hidx
  refine ⟨by simp [register_workshop], ?_, ?_, ?_, hat, ?_, ?_⟩
  · have h := is_workshop_active_scan_append registry.workshops [] addr entry hfind
    rw [List.append_nil] at h
    rw [is_workshop_active, h, hinact]
  · have h := is_workshop_active_scan_append registry.workshops
      [{ workshop := addr, did := did, public_key_multibase := pk, active := true }]
      addr entry hfind
    rw [is_workshop_active]
    exact h.trans hinact
  · simp [set_workshop_status, hadmin, hidx]
  · exact set_active_at_getElem?_self registry.workshops idx active entry hat
  · exact set_active_at_getElem?_ne registry.workshops idx active j hj

/-- A registry holding two entries for address 7: the first deactivated,
the second active. -/
def dupRegistry : Registry :=
  { admin := 1,
    workshops := [{ workshop := 7, did := "d", public_key_multibase := "k", active := false },
                  { workshop := 7, did := "d2", public_key_multibase := "k2", active := true }],
    passport_counter := 0 }

theorem c9_duplicate_registration_witness :
    dupRegistry.workshops.find? (fun it => it.workshop == 7) =
      some { workshop := 7, did := "d", public_key_multibase := "k", active := false } ∧
    find_workshop_index dupRegistry 7 = .ok 0 ∧
    register_workshop dupRegistry 7 "d3" "k3" 7 =
      .ok { dupRegistry with workshops := dupRegistry.workshops ++
            [{ workshop := 7, did := "d3", public_key_multibase := "k3", active := true }] } ∧
    is_workshop_active
      { dupRegistry with workshops := dupRegistry.workshops ++
        [{ workshop := 7, did := "d3", public_key_multibase := "k3", active := true }] }
      7 = false ∧
    set_workshop_status dupRegistry 7 true 1 =
      .ok { dupRegistry with workshops := set_active_at dupRegistry.workshops 0 true } ∧
    (set_active_at dupRegistry.workshops 0 true)[0]? =
      some { workshop := 7, did := "d", public_key_multibase := "k", active := true } ∧
    (set_active_at dupRegistry.workshops 0 true)[1]? = dupRegistry.workshops[1]? :=
  ⟨by decide, rfl,
   (c9_duplicate_registration dupRegistry 7 "d3" "k3"
      { workshop := 7, did := "d", public_key_multibase := "k", active := false }
      true 1 0 1 (by decide) rfl rfl rfl (by decide)).1,
   (c9_duplicate_registration dupRegistry 7 "d3" "k3"
      { workshop := 7, did := "d", public_key_multibase := "k", active := false }
      true 1 0 1 (by decide) rfl rfl rfl (by decide)).2.2.1,
   (c9_duplicate_registration dupRegistry 7 "d3" "k3"
      { workshop := 7, did := "d", public_key_multibase := "k", active := false }
      true 1 0 1 (by decide) rfl rfl rfl (by decide)).2.2.2.1,
   (c9_duplicate_registration dupRegistry 7 "d3" "k3"
      { workshop := 7, did := "d", public_key_multibase := "k", active := false }
      true 1 0 1 (by decide) rfl rfl rfl (by decide)).2.2.2.2.2.1,
   (c9_duplicate_registration dupRegistry 7 "d3" "k3"
      { workshop := 7, did := "d", public_key_multibase := "k", active := false }
      true 1 0 1 (by decide) rfl rfl rfl (by decide)).2.2.2.2.2.2⟩

/-- C10: a `record_intervention` step — successful or aborting — never
changes the registry (admin, passport counter and the whole workshop
collection included), never changes any passport other than the targeted
one, and when the call fails (any of the aborts) the whole ledger state,
the targeted passport included, is exactly as before the call. -/
theorem c10_record_registry_frame (s : LedgerState) (pidx odo : Nat)
    (wt nh eu ws : String) (ts sender j : Nat) (passport : Passport) (hj : j ≠ pidx) :
    (step s (.recordIntervention pidx odo wt nh eu ws ts sender)).registry = s.registry ∧
    (step s (.recordIntervention pidx odo wt nh eu ws ts sender)).passports[j]? =
      s.passports[j]? ∧
    (s.passports[pidx]? = some passport →
      Except.isOk (record_intervention s.registry passport odo wt nh eu ws ts sender) = false →
      step s (.recordIntervention pidx odo wt nh eu ws ts sender) = s) := by
  cases hg : s.passports[pidx]? with
  | none =>
      refine ⟨by simp [step, hg], by simp [step, hg], ?_⟩
      intro hp
      exact absurd hp (by simp)
  | some passport2 =>
      cases hq : record_intervention s.registry passport2 odo wt nh eu ws ts sender with
      | error e =>
          refine ⟨by simp [step, hg, hq], by simp [step, hg, hq], ?_⟩
          intro hp hfail
          simp [step, hg, hq]
      | ok p2 =>
          refine ⟨by simp [step, hg, hq], ?_, ?_⟩
          · simp only [step, hg, hq]
            exact List.getElem?_set_ne (fun he => hj he.symm)
          · intro hp hfail
            injection hp with hp
            subst hp
            rw [hq] at hfail
            exact absurd hfail (by simp [Except.isOk, Except.toBool])

theorem c10_record_registry_frame_witness :
    (1 : Nat) ≠ 0 ∧
    (step rollbackState (.recordIntervention 0 20000 "t" "n" "e" "w" 1 7)).registry =
      rollbackState.registry ∧
    (step rollbackState (.recordIntervention 0 20000 "t" "n" "e" "w" 1 7)).passports[1]? =
      rollbackState.passports[1]? ∧
    rollbackState.passports[0]? = some watermarkPassport ∧
    Except.isOk (record_intervention rollbackState.registry watermarkPassport
      0 "t" "n" "e" "w" 1 7) = false ∧
    step rollbackState (.recordIntervention 0 0 "t" "n" "e" "w" 1 7) = rollbackState :=
  ⟨by decide,
   (c10_record_registry_frame rollbackState 0 20000 "t" "n" "e" "w" 1 7 1 watermarkPassport
      (by decide)).1,
   (c10_record_registry_frame rollbackState 0 20000 "t" "n" "e" "w" 1 7 1 watermarkPassport
      (by decide)).2.1,
   rfl, rfl,
   (c10_record_registry_frame rollbackState 0 0 "t" "n" "e" "w" 1 7 1 watermarkPassport
      (by decide)).2.2 rfl rfl⟩

end VehiclePassport
